import Mathlib

/-!
Verification of the docflow-scanner-bridge core (src/src-tauri/src) against its
specification.  Each Rust function relevant to the claims is shallowly embedded
as an executable Lean definition; network and filesystem effects are passed in
as explicit oracles (functions from attempt index / request to outcome), and
machine integers are modelled as `Nat`/`Int` (no overflow is reachable at the
sizes involved: ports fit in 16 bits, counters are far below 2^32).
-/

/-! ### scanner.rs — eSCL client -/

/-- HTTP response to a `POST {base}/ScanJobs`, as far as `scan_escl_with_tls`
inspects it: the status code and the optional `Location` header value. -/
structure EsclResponse where
  status : Nat
  location : Option String
deriving Repr, DecidableEq

/-- One `client.post(...).send().await` either fails in transport (the Rust
`?` propagates the error) or yields a response. -/
inductive PostResult where
  | transport (msg : String)
  | response (r : EsclResponse)

/-- `StatusCode::is_success`: 2xx. -/
def isSuccessStatus (s : Nat) : Bool := 200 ≤ s && s < 300

/-- Rust `str::contains(char)`, over the string's character list. -/
def str_contains_char (s : String) (c : Char) : Bool := s.data.contains c

/-- Rust `str::starts_with(pattern)`, over the strings' character lists. -/
def str_starts_with (s pre : String) : Bool := pre.data.isPrefixOf s.data

/-- Rust `str::contains(substring)`: some suffix of `s` starts with `pat`. -/
def str_contains_sub (s pat : String) : Bool :=
  s.data.tails.any (fun t => pat.data.isPrefixOf t)

/-- Rust `str::to_lowercase` (ASCII is all that reaches it here). -/
def str_to_lowercase (s : String) : String := ⟨s.data.map Char.toLower⟩

/-- Display of an HTTP status code as produced by `format!("{}", status)` on a
`reqwest::StatusCode` (code followed by its canonical reason; only 409 is
needed by the claims). -/
def statusDisplay (s : Nat) : String :=
  if s = 409 then "409 Conflict" else toString s

/-- Scheme selection in `scan_escl_with_tls`:
`if use_tls || scanner_port == 443 { "https" } else { "http" }`. -/
def escl_scheme (use_tls : Bool) (port : Nat) : String :=
  if use_tls || port == 443 then "https" else "http"

/-- Host segment in `scan_escl_with_tls`: IPv6 literals (any ip containing
a colon) are wrapped in square brackets. -/
def escl_host (ip : String) : String :=
  if str_contains_char ip ':' then "[" ++ ip ++ "]" else ip

/-- Base URL built by `scan_escl_with_tls` (scanner.rs line 65):
`format!("{}://{}:{}/eSCL", scheme, host, scanner_port)`.  The function takes
no resource-path parameter; the path segment is the literal `eSCL`. -/
def escl_base_url (ip : String) (port : Nat) (use_tls : Bool) : String :=
  escl_scheme use_tls port ++ "://" ++ escl_host ip ++ ":" ++ toString port ++ "/eSCL"

/-- Modelled from the spec (§4.C, claim C1 wording): the base URL the eSCL
client is claimed to address, `<scheme>://<host>:<port>/<rsPath>` with the
supplied rsPath as the final path segment. -/
def spec_base_url (ip : String) (port : Nat) (useTLS : Bool) (rsPath : String) : String :=
  escl_scheme useTLS port ++ "://" ++ escl_host ip ++ ":" ++ toString port ++ "/" ++ rsPath

/-- Error message at scanner.rs line 173, reached only when the loop broke
with an empty job URL. -/
def busyMsg : String :=
  "Scanner dauerhaft busy (409 Conflict) — bitte Scanner neu starten oder Display prüfen"

/-- `let max_retries = 4;` (scanner.rs line 128). -/
def max_retries : Nat := 4

/-- Outcome of the job-creation phase. -/
inductive JobCreate where
  | ok (jobUrl : String)
  | err (msg : String)
deriving Repr, DecidableEq

/-- The `for attempt in 0..max_retries` loop of scanner.rs lines 130-174,
combined with the post-loop `job_url.is_empty()` check: on a 2xx response the
`Location` header is taken (missing header fails with "Keine Job-URL
erhalten"; an empty value falls through to the post-loop busy error); a 409
retries while `attempt < max_retries - 1`; anything else fails with the
status.  The returned `Nat` is the number of `POST /ScanJobs` requests
issued (one per loop iteration entered). -/
def create_scan_job_go (net : Nat → PostResult) (attempt : Nat) : JobCreate × Nat :=
  match net attempt with
  | .transport e => (.err e, attempt + 1)
  | .response r =>
    if isSuccessStatus r.status then
      match r.location with
      | none => (.err "Keine Job-URL erhalten", attempt + 1)
      | some url =>
        if url = "" then (.err busyMsg, attempt + 1)
        else (.ok url, attempt + 1)
    else if h : r.status = 409 ∧ attempt < max_retries - 1 then
      create_scan_job_go net (attempt + 1)
    else
      (.err ("Scan-Job erstellen fehlgeschlagen: " ++ statusDisplay r.status), attempt + 1)
termination_by max_retries - attempt
decreasing_by simp [max_retries] at *; omega

/-- Job creation starting at attempt 0. -/
def create_scan_job (net : Nat → PostResult) : JobCreate × Nat :=
  create_scan_job_go net 0

/-- A scanner that answers 409 to every `POST /ScanJobs`. -/
def netAll409 : Nat → PostResult := fun _ => .response ⟨409, none⟩

/-- A 409 response with `attempt < 3` makes the loop continue with the
next attempt. -/
theorem create_go_step_409 (net : Nat → PostResult) (attempt : Nat) (l : Option String)
    (h : net attempt = .response ⟨409, l⟩) (hlt : attempt < 3) :
    create_scan_job_go net attempt = create_scan_job_go net (attempt + 1) := by
  conv_lhs => unfold create_scan_job_go
  rw [h]
  simp [isSuccessStatus, max_retries, hlt]

/-- A 2xx response with a nonempty `Location` ends the loop successfully. -/
theorem create_go_step_success_some (net : Nat → PostResult) (attempt : Nat)
    (r : EsclResponse) (h : net attempt = .response r) (hs : isSuccessStatus r.status = true)
    (url : String) (hl : r.location = some url) (hne : url ≠ "") :
    create_scan_job_go net attempt = (.ok url, attempt + 1) := by
  conv_lhs => unfold create_scan_job_go
  rw [h]
  simp [hs, hl, hne]

/-- A 2xx response without a `Location` header fails with
"Keine Job-URL erhalten". -/
theorem create_go_step_success_none (net : Nat → PostResult) (attempt : Nat)
    (r : EsclResponse) (h : net attempt = .response r) (hs : isSuccessStatus r.status = true)
    (hl : r.location = none) :
    create_scan_job_go net attempt = (.err "Keine Job-URL erhalten", attempt + 1) := by
  conv_lhs => unfold create_scan_job_go
  rw [h]
  simp [hs, hl]

/-- If the first `k` attempts all see 409, execution reaches attempt `k`. -/
theorem create_go_chain (net : Nat → PostResult) (k : Nat) (hk : k ≤ 3)
    (hbusy : ∀ i, i < k → ∃ l, net i = .response ⟨409, l⟩) :
    create_scan_job net = create_scan_job_go net k := by
  induction k with
  | zero => rfl
  | succ n ih =>
    rw [ih (by omega) (fun i hi => hbusy i (by omega))]
    obtain ⟨l, hl⟩ := hbusy n (by omega)
    exact create_go_step_409 net n l hl (by omega)

/-- C1: the claim says the eSCL client addresses the scanner under
`<scheme>://<host>:<port>/<rsPath>`.  The code's `scan_escl_with_tls` has no
rsPath parameter at all and hardcodes the path segment `eSCL`, so for any
supplied rsPath other than "eSCL" (here "eSCL2") the URL built by the code
differs from the claimed one; scheme and host selection do match the claim
(shown on an https and a bracketed-IPv6 example). -/
theorem C1_rs_path_code_bug :
    escl_base_url "192.168.1.50" 80 false = "http://192.168.1.50:80/eSCL" ∧
    spec_base_url "192.168.1.50" 80 false "eSCL2" = "http://192.168.1.50:80/eSCL2" ∧
    escl_base_url "192.168.1.50" 80 false ≠ spec_base_url "192.168.1.50" 80 false "eSCL2" ∧
    escl_base_url "fe80::1" 443 false = "https://[fe80::1]:443/eSCL" ∧
    escl_base_url "10.0.0.2" 8080 true = "https://10.0.0.2:8080/eSCL" := by
  refine ⟨rfl, rfl, by decide, rfl, rfl⟩

/-- C2: if the first k (k ∈ {0,1,2,3}) `POST /ScanJobs` attempts return 409
and attempt k returns 2xx, then with a nonempty Location header the client
succeeds with that URL verbatim after exactly k+1 POSTs, and with no Location
header it fails with "Keine Job-URL erhalten". -/
theorem C2_busy_recovery (net : Nat → PostResult) (k : Nat) (hk : k < 4)
    (hbusy : ∀ i, i < k → ∃ l, net i = PostResult.response ⟨409, l⟩)
    (r : EsclResponse) (hr : net k = PostResult.response r)
    (hs : isSuccessStatus r.status = true) :
    (∀ url, r.location = some url → url ≠ "" →
      create_scan_job net = (JobCreate.ok url, k + 1)) ∧
    (r.location = none →
      create_scan_job net = (JobCreate.err "Keine Job-URL erhalten", k + 1)) := by
  constructor
  · intro url hl hne
    rw [create_go_chain net k (by omega) hbusy]
    exact create_go_step_success_some net k r hr hs url hl hne
  · intro hl
    rw [create_go_chain net k (by omega) hbusy]
    exact create_go_step_success_none net k r hr hs hl

/-- Concrete network for the C2 witness: 409 on attempt 0, then 201 with a
Location header. -/
def netBusyOnce : Nat → PostResult := fun i =>
  if i = 0 then .response ⟨409, none⟩
  else .response ⟨201, some "http://10.0.0.2:443/eSCL/ScanJobs/5"⟩

/-- C2 witness: one 409 then a 201 carrying a Location header yields success
with the Location value and exactly 2 POSTs. -/
theorem C2_busy_recovery_witness :
    create_scan_job netBusyOnce = (JobCreate.ok "http://10.0.0.2:443/eSCL/ScanJobs/5", 2) :=
  (C2_busy_recovery netBusyOnce 1 (by omega)
    (fun i hi => ⟨none, by interval_cases i; rfl⟩)
    ⟨201, some "http://10.0.0.2:443/eSCL/ScanJobs/5"⟩ rfl rfl).1
    "http://10.0.0.2:443/eSCL/ScanJobs/5" rfl (by decide)

/-- On the fourth consecutive 409 the guard `attempt < max_retries - 1` is
false, so the loop returns the generic status failure, not the busy message. -/
theorem create_scan_job_all409 :
    create_scan_job netAll409 =
      (JobCreate.err "Scan-Job erstellen fehlgeschlagen: 409 Conflict", 4) := by
  have h0 : create_scan_job netAll409 = create_scan_job_go netAll409 3 :=
    create_go_chain netAll409 3 (by omega) (fun _ _ => ⟨none, rfl⟩)
  rw [h0]
  unfold create_scan_job_go
  simp [netAll409, isSuccessStatus, max_retries, statusDisplay]

/-- C3 counterexample: with 409 on all four attempts the client does issue
exactly 4 POSTs, but the error it fails with is
"Scan-Job erstellen fehlgeschlagen: 409 Conflict", not the
"Scanner dauerhaft busy" message the claim names (that message sits behind
the post-loop empty-URL check, which the all-409 path never reaches). -/
theorem C3_busy_exhausted_counterexample :
    create_scan_job netAll409 =
      (JobCreate.err "Scan-Job erstellen fehlgeschlagen: 409 Conflict", 4) ∧
    ("Scan-Job erstellen fehlgeschlagen: 409 Conflict" : String) ≠ busyMsg := by
  exact ⟨create_scan_job_all409, by decide⟩

/-- C3 amended: if `POST /ScanJobs` returns 409 on all 4 attempts, the client
fails with "Scan-Job erstellen fehlgeschlagen: 409 Conflict" and issues
exactly 4 POSTs. -/
theorem C3_busy_exhausted (net : Nat → PostResult)
    (h : ∀ i, i < 4 → ∃ l, net i = PostResult.response ⟨409, l⟩) :
    create_scan_job net =
      (JobCreate.err "Scan-Job erstellen fehlgeschlagen: 409 Conflict", 4) := by
  rw [create_go_chain net 3 (by omega) (fun i hi => h i (by omega))]
  obtain ⟨l, hl⟩ := h 3 (by omega)
  unfold create_scan_job_go
  rw [hl]
  simp [isSuccessStatus, max_retries, statusDisplay]

/-- C3 amended witness: the all-409 scanner instantiates the amended claim. -/
theorem C3_busy_exhausted_witness :
    create_scan_job netAll409 =
      (JobCreate.err "Scan-Job erstellen fehlgeschlagen: 409 Conflict", 4) :=
  C3_busy_exhausted netAll409 (fun _ _ => ⟨none, rfl⟩)

/-! ### scan_poller.rs — scan job poller -/

/-- The fields of `DiscoveredScanner` (discovery.rs) that the poller and the
arbitration logic consume. -/
structure DiscoveredScannerM where
  id : String
  ip : String
  port : Nat
  use_tls : Bool
  rs_path : String
deriving Repr, DecidableEq

/-- The multipart error report built by `report_error`
(scan_poller.rs lines 165-194). -/
structure ErrorReport where
  url : String
  file_name : String
  file_mime : String
  file_bytes : List Nat
  success : String
  error_message : String
deriving Repr, DecidableEq

/-- `report_error`: POST to `{docflow_url}/api/scanner/bridge/scan-upload/{job_id}`
with an empty file part named `error.txt` (`text/plain`), `success="false"`
and the error text in `error_message`. -/
def mk_error_report (docflow_url job_id msg : String) : ErrorReport :=
  { url := docflow_url ++ "/api/scanner/bridge/scan-upload/" ++ job_id
    file_name := "error.txt"
    file_mime := "text/plain"
    file_bytes := []
    success := "false"
    error_message := msg }

/-- `report_error` returns `Ok(())` whatever the send does
(`let _ = client.post(...).send().await;`): the report plus the swallowed
outcome. -/
def report_error (docflow_url job_id msg : String) (send : Except String Unit) :
    ErrorReport × Except String Unit :=
  match send with
  | _ => (mk_error_report docflow_url job_id msg, Except.ok ())

/-- `execute_scan_job` (scan_poller.rs lines 89-125): look the scanner up by
id, run the eSCL scan (outcome passed as an oracle, pages as byte lists with
the base64 round-trip elided), fail on zero pages, else return the first
page's bytes. -/
def execute_scan_job (scanners : List DiscoveredScannerM) (scanner_id : String)
    (scan_result : Except String (List (List Nat))) : Except String (List Nat) :=
  match scanners.find? (fun s => s.id == scanner_id) with
  | none => .error ("Scanner '" ++ scanner_id ++ "' nicht gefunden")
  | some _ =>
    match scan_result with
    | .error e => .error e
    | .ok pages =>
      if pages.isEmpty then .error "Keine Seiten gescannt"
      else .ok (pages.headD [])

/-- Per-command body of the `for job in jobs` loop in `start_polling`
(scan_poller.rs lines 223-243): on a successful scan, upload; a successful
upload increments `jobs_processed` by 1, otherwise `report_error` is called;
a failed scan also calls `report_error`.  Returns the `jobs_processed`
increment and the error reports issued. -/
def handle_job (docflow_url job_id : String) (scanners : List DiscoveredScannerM)
    (scanner_id : String) (scan_result : Except String (List (List Nat)))
    (upload : List Nat → Except String Unit) : Nat × List ErrorReport :=
  match execute_scan_job scanners scanner_id scan_result with
  | .ok data =>
    match upload data with
    | .ok _ => (1, [])
    | .error e => (0, [mk_error_report docflow_url job_id e])
  | .error e => (0, [mk_error_report docflow_url job_id e])

/-- `PollerStatus` (scan_poller.rs lines 32-38). -/
structure PollerStatusM where
  running : Bool
  last_poll : Option String
  jobs_processed : Nat
  last_error : Option String
deriving Repr, DecidableEq

/-- Initial poller status (scan_poller.rs lines 58-63). -/
def initial_poller_status : PollerStatusM :=
  { running := false, last_poll := none, jobs_processed := 0, last_error := none }

/-- Status update and logging decision of one poll in `start_polling`
(scan_poller.rs lines 215-252): a successful poll stamps `last_poll` and
clears `last_error`; a failed poll stores the error text in `last_error`
unconditionally and logs it only when the text does not contain "401".
Returns the updated status and whether the error line was printed. -/
def handle_poll_result (status : PollerStatusM) (res : Except String (List String))
    (now : String) : PollerStatusM × Bool :=
  match res with
  | .ok _ => ({ status with last_poll := some now, last_error := none }, false)
  | .error e => ({ status with last_error := some e }, ! str_contains_sub e "401")

/-- C4: processing one command increments jobs_processed exactly when the
upload succeeds; every failure path (scanner missing from the registry, eSCL
error, zero pages, upload error) instead yields exactly the error report with
an empty `error.txt` file part, `success="false"` and the failure text, sent
to `/api/scanner/bridge/scan-upload/<jobId>`; and `report_error` swallows the
outcome of its own send. -/
theorem C4_job_processing (docflow_url job_id : String)
    (scanners : List DiscoveredScannerM) (scanner_id : String)
    (scan_result : Except String (List (List Nat)))
    (upload : List Nat → Except String Unit) (send : Except String Unit) :
    ((handle_job docflow_url job_id scanners scanner_id scan_result upload).1 = 1 ↔
      ∃ d, execute_scan_job scanners scanner_id scan_result = .ok d ∧ upload d = .ok ()) ∧
    (∀ e, execute_scan_job scanners scanner_id scan_result = .error e →
      handle_job docflow_url job_id scanners scanner_id scan_result upload =
        (0, [mk_error_report docflow_url job_id e])) ∧
    (∀ d e, execute_scan_job scanners scanner_id scan_result = .ok d →
      upload d = .error e →
      handle_job docflow_url job_id scanners scanner_id scan_result upload =
        (0, [mk_error_report docflow_url job_id e])) ∧
    (scanners.find? (fun s => s.id == scanner_id) = none →
      execute_scan_job scanners scanner_id scan_result =
        .error ("Scanner '" ++ scanner_id ++ "' nicht gefunden")) ∧
    ((∃ s, scanners.find? (fun s => s.id == scanner_id) = some s) →
      scan_result = .ok [] →
      execute_scan_job scanners scanner_id scan_result = .error "Keine Seiten gescannt") ∧
    (∀ msg, (mk_error_report docflow_url job_id msg).file_bytes = [] ∧
      (mk_error_report docflow_url job_id msg).file_name = "error.txt" ∧
      (mk_error_report docflow_url job_id msg).file_mime = "text/plain" ∧
      (mk_error_report docflow_url job_id msg).success = "false" ∧
      (mk_error_report docflow_url job_id msg).error_message = msg ∧
      (mk_error_report docflow_url job_id msg).url =
        docflow_url ++ "/api/scanner/bridge/scan-upload/" ++ job_id) ∧
    (report_error docflow_url job_id "x" send).2 = Except.ok () := by
  refine ⟨?_, ?_, ?_, ?_, ?_, ?_, ?_⟩
  · constructor
    · intro h1
      rcases hx : execute_scan_job scanners scanner_id scan_result with e | d
      · exfalso; simp [handle_job, hx] at h1
      · rcases hu : upload d with e | u
        · exfalso; simp [handle_job, hx, hu] at h1
        · exact ⟨d, rfl, by cases u; exact hu⟩
    · rintro ⟨d, hx, hu⟩
      simp [handle_job, hx, hu]
  · intro e hx
    simp [handle_job, hx]
  · intro d e hx hu
    simp [handle_job, hx, hu]
  · intro hfind
    unfold execute_scan_job
    rw [hfind]
  · rintro ⟨s, hfind⟩ hres
    simp [execute_scan_job, hfind, hres]
  · intro msg
    exact ⟨rfl, rfl, rfl, rfl, rfl, rfl⟩
  · unfold report_error
    rfl

/-- C4 witness: a command naming an unregistered scanner produces no
increment and exactly the expected error report. -/
theorem C4_job_processing_witness :
    handle_job "http://docflow:4000" "j-7" [] "ghost" (.ok [[1, 2]])
        (fun _ => Except.ok ()) =
      (0, [mk_error_report "http://docflow:4000" "j-7" "Scanner 'ghost' nicht gefunden"]) :=
  (C4_job_processing "http://docflow:4000" "j-7" [] "ghost" (.ok [[1, 2]])
      (fun _ => Except.ok ()) (Except.ok ())).2.1
    "Scanner 'ghost' nicht gefunden"
    ((C4_job_processing "http://docflow:4000" "j-7" [] "ghost" (.ok [[1, 2]])
      (fun _ => Except.ok ()) (Except.ok ())).2.2.2.1 rfl)

/-- Concrete 401 poll failure text (`poll_pending_jobs` formats the response
body into "Polling fehlgeschlagen: {}"). -/
def err401 : String := "Polling fehlgeschlagen: 401 Unauthorized"

/-- C9 counterexample: a 401 polling failure does not leave `lastError`
unset — `start_polling` stores the error text in `last_error` before the
401 check, which only suppresses the log line. -/
theorem C9_silent_401_counterexample :
    str_contains_sub err401 "401" = true ∧
    (handle_poll_result initial_poller_status (Except.error err401)
        "2026-01-01T00:00:00Z").1.last_error = some err401 ∧
    (handle_poll_result initial_poller_status (Except.error err401)
        "2026-01-01T00:00:00Z").2 = false := by
  refine ⟨by decide, rfl, by decide⟩

/-- C9 amended: every polling failure is recorded in `lastError`; an error
whose text contains "401" only suppresses the log line, and a successful poll
clears `lastError`. -/
theorem C9_poll_error_recording (st : PollerStatusM) (e now : String) :
    (handle_poll_result st (Except.error e) now).1.last_error = some e ∧
    ((handle_poll_result st (Except.error e) now).2 = true ↔
      str_contains_sub e "401" = false) ∧
    (∀ jobs, (handle_poll_result st (Except.ok jobs) now).1.last_error = none) := by
  refine ⟨rfl, ?_, fun jobs => rfl⟩
  simp [handle_poll_result]

/-! ### discovery.rs — preference arbitration -/

/-- `score_scanner` (discovery.rs lines 137-161): +20 for TLS; port bonus
443/80/8080 of 15/10/5; +3 for IPv4 (no colon in the ip text), else −3 for a
link-local IPv6 (lowercased ip starting with "fe80:"). -/
def score_scanner (s : DiscoveredScannerM) : Int :=
  let score : Int := 0
  let score := if s.use_tls then score + 20 else score
  let score := score + (match s.port with
    | 443 => 15
    | 80 => 10
    | 8080 => 5
    | _ => 0)
  let score :=
    if ! str_contains_char s.ip ':' then score + 3
    else if str_starts_with (str_to_lowercase s.ip) "fe80:" then score - 3
    else score
  score

/-- `prefer_scanner` (discovery.rs lines 133-135): strictly higher score. -/
def prefer_scanner (candidate current : DiscoveredScannerM) : Bool :=
  decide (score_scanner candidate > score_scanner current)

/-- Duplicate-id arbitration in `discover_mdns` (discovery.rs lines 106-116):
the candidate replaces the stored entry exactly when `prefer_scanner` holds.
First component: the scanner retained; second: the one discarded. -/
def resolve_duplicate (candidate existing : DiscoveredScannerM) :
    DiscoveredScannerM × DiscoveredScannerM :=
  if prefer_scanner candidate existing then (candidate, existing)
  else (existing, candidate)

/-- C8: for two mDNS candidates with the same id the retained one scores at
least as high as the discarded one, with the score of discovery.rs
(TLS +20; port 443/80/8080 bonus 15/10/5; IPv4 +3; link-local IPv6 −3). -/
theorem C8_preference_monotonicity (candidate existing : DiscoveredScannerM) :
    score_scanner (resolve_duplicate candidate existing).1 ≥
      score_scanner (resolve_duplicate candidate existing).2 := by
  by_cases h : score_scanner candidate > score_scanner existing
  · simp [resolve_duplicate, prefer_scanner, h]
    omega
  · simp [resolve_duplicate, prefer_scanner, h]
    omega

/-! ### pairing.rs — pairing client -/

/-- `PairingCode` (pairing.rs lines 7-15). -/
structure PairingCodeM where
  docflow_url : String
  tenant_id : Option Int
  pairing_token : String
  bridge_name : Option String
deriving Repr, DecidableEq

/-- `PairingResult` (pairing.rs lines 18-25). -/
structure PairingResultM where
  bridge_id : String
  api_key : String
  refresh_token : String
  docflow_url : String
  tenant_name : String
deriving Repr, DecidableEq

/-- Rust `str::trim_end_matches('/')`: drop every trailing slash. -/
def trim_end_matches_slash (s : String) : String :=
  ⟨(s.data.reverse.dropWhile (fun c => c == '/')).reverse⟩

/-- What `pair` returns and persists: the result handed back to the caller
plus the two vault writes (`api_key`, `docflow_url`). -/
structure PairOutcome where
  result : PairingResultM
  vault_api_key : String
  vault_docflow_url : String
deriving Repr, DecidableEq

/-- `pair` (pairing.rs lines 39-100).  A code starting with a brace is parsed
as JSON (oracle `parse_json`) and its `docflow_url` becomes effective; a code
containing a dash requires the user URL (else fail), resolves via the backend
(oracle `resolve_code`) and the trimmed user URL becomes effective; any other
code is rejected.  The register POST (oracle, given the resolved code and the
effective URL) yields the result, whose `docflow_url` is overridden with the
effective URL before persisting and returning. -/
def pair (pairing_code : String) (docflow_url : Option String)
    (parse_json : Except String PairingCodeM)
    (resolve_code : Except String PairingCodeM)
    (register : PairingCodeM → String → Except String PairingResultM) :
    Except String PairOutcome :=
  let step : Except String (PairingCodeM × String) :=
    if str_starts_with pairing_code "\x7b" then
      match parse_json with
      | .error e => .error e
      | .ok parsed => .ok (parsed, parsed.docflow_url)
    else if str_contains_char pairing_code '-' then
      match docflow_url with
      | none => .error "DocFlow-URL wird für manuelle Codes benötigt"
      | some url =>
        match resolve_code with
        | .error e => .error e
        | .ok resolved => .ok (resolved, trim_end_matches_slash url)
    else
      .error "Ungültiger Pairing-Code"
  match step with
  | .error e => .error e
  | .ok (code, effective_url) =>
    match register code effective_url with
    | .error e => .error e
    | .ok result =>
      .ok { result := { result with docflow_url := effective_url }
            vault_api_key := result.api_key
            vault_docflow_url := effective_url }

/-- C5: for a manual code (contains a dash, does not start with a brace) a
missing user URL fails the pairing; with a user URL the returned and
persisted credentials carry the user URL with trailing slashes trimmed as
`docflow_url`, whatever `docflow_url` the register response carried; a code
that neither starts with a brace nor contains a dash is rejected as
"Ungültiger Pairing-Code". -/
theorem C5_manual_pairing (code : String) (user_url : Option String)
    (parse_json resolve_code : Except String PairingCodeM)
    (register : PairingCodeM → String → Except String PairingResultM)
    (hjson : str_starts_with code "\x7b" = false) :
    (str_contains_char code '-' = true →
      pair code none parse_json resolve_code register =
        Except.error "DocFlow-URL wird für manuelle Codes benötigt") ∧
    (∀ u resolved r, str_contains_char code '-' = true →
      user_url = some u → resolve_code = Except.ok resolved →
      register resolved (trim_end_matches_slash u) = Except.ok r →
      pair code user_url parse_json resolve_code register =
        Except.ok { result := { r with docflow_url := trim_end_matches_slash u }
                    vault_api_key := r.api_key
                    vault_docflow_url := trim_end_matches_slash u }) ∧
    (str_contains_char code '-' = false →
      pair code user_url parse_json resolve_code register =
        Except.error "Ungültiger Pairing-Code") := by
  refine ⟨?_, ?_, ?_⟩
  · intro hdash
    simp [pair, hjson, hdash]
  · intro u resolved r hdash hu hres hreg
    subst hu
    simp [pair, hjson, hdash, hres, hreg]
  · intro hdash
    simp [pair, hjson, hdash]

/-- Register response used by the C5 witness: the backend names a different
`docflow_url` than the user supplied. -/
def registerRespW : PairingResultM :=
  { bridge_id := "b-1", api_key := "key-1", refresh_token := "rt-1"
    docflow_url := "https://other:443", tenant_name := "T" }

/-- Resolved pairing code used by the C5 witness. -/
def resolvedCodeW : PairingCodeM :=
  { docflow_url := "https://other:443", tenant_id := none
    pairing_token := "tok", bridge_name := none }

/-- C5 witness: manual code with a user URL carrying trailing slashes; the
pairing succeeds and both the returned and the persisted `docflow_url` are
the trimmed user URL, not the one from the register response. -/
theorem C5_manual_pairing_witness :
    pair "ABCD-1234-WXYZ" (some "http://host.local:4000///")
        (Except.error "unused") (Except.ok resolvedCodeW)
        (fun _ _ => Except.ok registerRespW) =
      Except.ok { result := { registerRespW with docflow_url := "http://host.local:4000" }
                  vault_api_key := "key-1"
                  vault_docflow_url := "http://host.local:4000" } :=
  (C5_manual_pairing "ABCD-1234-WXYZ" (some "http://host.local:4000///")
      (Except.error "unused") (Except.ok resolvedCodeW)
      (fun _ _ => Except.ok registerRespW) (by decide)).2.1
    "http://host.local:4000///" resolvedCodeW registerRespW
    (by decide) rfl rfl rfl

/-! ### folder_watcher.rs — folder ingest -/

/-- `ALLOWED_EXTENSIONS` (folder_watcher.rs line 52). -/
def allowed_extensions : List String := ["pdf", "jpg", "jpeg", "png", "tiff", "tif"]

/-- `MAX_FILE_SIZE` (folder_watcher.rs line 55): 50 MiB in bytes. -/
def max_file_size : Nat := 50 * 1024 * 1024

/-- `is_allowed_extension` (folder_watcher.rs lines 86-91): the lowercased
extension must be in the allow list; a missing extension fails. -/
def is_allowed_extension (ext : Option String) : Bool :=
  match ext with
  | none => false
  | some e => allowed_extensions.contains (str_to_lowercase e)

/-- `wait_for_file_stable` (folder_watcher.rs lines 103-113): the three size
samples must all be present, equal and positive. -/
def wait_for_file_stable (sizes : List Nat) : Bool :=
  match sizes with
  | [s0, s1, s2] => s0 == s1 && s1 == s2 && s0 > 0
  | _ => false

/-- Backend answer to a folder upload (`FolderUploadResponse`,
folder_watcher.rs lines 40-49; the unused float field is dropped). -/
structure FolderUploadResponseM where
  success : Bool
  job_id : Int
  filename : String
  duplicate : Bool
  message : String
deriving Repr, DecidableEq

/-- One HTTP attempt of `upload_file` either fails in transport or yields a
status code and body. -/
inductive HttpAttempt where
  | transport (msg : String)
  | response (status : Nat) (body : String)

/-- Observable outcome of `upload_file`: the result, the number of HTTP
requests made, the number of times the multipart form was rebuilt (file bytes
re-read), and the sleeps performed, in seconds and in order. -/
structure UploadRun where
  result : Except String FolderUploadResponseM
  attempts : Nat
  rebuilds : Nat
  waits : List Nat
deriving Repr

/-- The `for attempt in 0..3` retry loop of `upload_file` (folder_watcher.rs
lines 151-198): before each retry sleep `2^attempt` seconds; re-read the file
and rebuild the form on every iteration; a 2xx response is decoded (decode
oracle `parse`, its failure propagating via `?`); a 429 sets the rate-limit
error, sleeps 10 s extra and retries; any other response stores the body as
the last error and retries; a transport error stores its text and retries;
after the loop fail with the last error. -/
def upload_file_go (net : Nat → HttpAttempt)
    (parse : String → Except String FolderUploadResponseM)
    (attempt : Nat) (last_error : String) : UploadRun :=
  if _h : attempt < 3 then
    let pre : List Nat := if attempt > 0 then [2 ^ attempt] else []
    match net attempt with
    | .transport e =>
      let rest := upload_file_go net parse (attempt + 1) e
      { rest with attempts := rest.attempts + 1, rebuilds := rest.rebuilds + 1
                  waits := pre ++ rest.waits }
    | .response status body =>
      if isSuccessStatus status then
        match parse body with
        | .ok r => { result := .ok r, attempts := 1, rebuilds := 1, waits := pre }
        | .error e => { result := .error e, attempts := 1, rebuilds := 1, waits := pre }
      else if status = 429 then
        let rest := upload_file_go net parse (attempt + 1) "Rate-Limit erreicht"
        { rest with attempts := rest.attempts + 1, rebuilds := rest.rebuilds + 1
                    waits := pre ++ 10 :: rest.waits }
      else
        let rest := upload_file_go net parse (attempt + 1) body
        { rest with attempts := rest.attempts + 1, rebuilds := rest.rebuilds + 1
                    waits := pre ++ rest.waits }
  else
    { result := .error ("Upload fehlgeschlagen nach 3 Versuchen: " ++ last_error)
      attempts := 0, rebuilds := 0, waits := [] }
termination_by 3 - attempt

/-- `upload_file` starting at attempt 0 with an empty last error. -/
def upload_file (net : Nat → HttpAttempt)
    (parse : String → Except String FolderUploadResponseM) : UploadRun :=
  upload_file_go net parse 0 ""

/-- Past the third attempt the loop exits with the accumulated error. -/
theorem upload_go_exhausted (net : Nat → HttpAttempt)
    (parse : String → Except String FolderUploadResponseM)
    (attempt : Nat) (hge : 3 ≤ attempt) (le : String) :
    upload_file_go net parse attempt le =
      { result := .error ("Upload fehlgeschlagen nach 3 Versuchen: " ++ le)
        attempts := 0, rebuilds := 0, waits := [] } := by
  unfold upload_file_go
  simp [Nat.not_lt.mpr hge]

/-- Loop step on a transport error: store the error, retry. -/
theorem upload_go_transport (net : Nat → HttpAttempt)
    (parse : String → Except String FolderUploadResponseM)
    (attempt : Nat) (hlt : attempt < 3) (e le : String)
    (hn : net attempt = .transport e) :
    upload_file_go net parse attempt le =
      (let rest := upload_file_go net parse (attempt + 1) e
       { rest with attempts := rest.attempts + 1, rebuilds := rest.rebuilds + 1
                   waits := (if attempt > 0 then [2 ^ attempt] else []) ++ rest.waits }) := by
  conv_lhs => unfold upload_file_go
  rw [dif_pos hlt, hn]

/-- Loop step on a 2xx response whose body decodes: success. -/
theorem upload_go_success (net : Nat → HttpAttempt)
    (parse : String → Except String FolderUploadResponseM)
    (attempt : Nat) (hlt : attempt < 3) (status : Nat) (body le : String)
    (hn : net attempt = .response status body) (hs : isSuccessStatus status = true)
    (r : FolderUploadResponseM) (hp : parse body = .ok r) :
    upload_file_go net parse attempt le =
      { result := .ok r, attempts := 1, rebuilds := 1
        waits := if attempt > 0 then [2 ^ attempt] else [] } := by
  conv_lhs => unfold upload_file_go
  rw [dif_pos hlt, hn]
  dsimp only
  rw [if_pos hs, hp]

/-- Loop step on a 2xx response whose body fails to decode: the decode error
propagates. -/
theorem upload_go_success_bad_body (net : Nat → HttpAttempt)
    (parse : String → Except String FolderUploadResponseM)
    (attempt : Nat) (hlt : attempt < 3) (status : Nat) (body le : String)
    (hn : net attempt = .response status body) (hs : isSuccessStatus status = true)
    (e : String) (hp : parse body = .error e) :
    upload_file_go net parse attempt le =
      { result := .error e, attempts := 1, rebuilds := 1
        waits := if attempt > 0 then [2 ^ attempt] else [] } := by
  conv_lhs => unfold upload_file_go
  rw [dif_pos hlt, hn]
  dsimp only
  rw [if_pos hs, hp]

/-- Loop step on a 429: extra 10 s sleep, rate-limit last error, retry. -/
theorem upload_go_429 (net : Nat → HttpAttempt)
    (parse : String → Except String FolderUploadResponseM)
    (attempt : Nat) (hlt : attempt < 3) (body le : String)
    (hn : net attempt = .response 429 body) :
    upload_file_go net parse attempt le =
      (let rest := upload_file_go net parse (attempt + 1) "Rate-Limit erreicht"
       { rest with attempts := rest.attempts + 1, rebuilds := rest.rebuilds + 1
                   waits := (if attempt > 0 then [2 ^ attempt] else []) ++ 10 :: rest.waits }) := by
  conv_lhs => unfold upload_file_go
  rw [dif_pos hlt, hn]
  dsimp only
  rw [if_neg (by simp [isSuccessStatus]), if_pos rfl]

/-- Loop step on any other non-2xx response: store the body, retry. -/
theorem upload_go_other (net : Nat → HttpAttempt)
    (parse : String → Except String FolderUploadResponseM)
    (attempt : Nat) (hlt : attempt < 3) (status : Nat) (body le : String)
    (hn : net attempt = .response status body) (hs : ¬ isSuccessStatus status = true)
    (h429 : status ≠ 429) :
    upload_file_go net parse attempt le =
      (let rest := upload_file_go net parse (attempt + 1) body
       { rest with attempts := rest.attempts + 1, rebuilds := rest.rebuilds + 1
                   waits := (if attempt > 0 then [2 ^ attempt] else []) ++ rest.waits }) := by
  conv_lhs => unfold upload_file_go
  rw [dif_pos hlt, hn]
  dsimp only
  rw [if_neg hs, if_neg h429]

/-- Attempt count and rebuild count agree, and the attempt count never
exceeds the attempts remaining. -/
theorem upload_go_attempts_le (net : Nat → HttpAttempt)
    (parse : String → Except String FolderUploadResponseM) :
    ∀ m attempt le, 3 - attempt ≤ m →
      (upload_file_go net parse attempt le).attempts ≤ 3 - attempt ∧
      (upload_file_go net parse attempt le).rebuilds =
        (upload_file_go net parse attempt le).attempts := by
  intro m
  induction m with
  | zero =>
    intro attempt le hm
    rw [upload_go_exhausted net parse attempt (by omega) le]
    exact ⟨by simp, rfl⟩
  | succ n ih =>
    intro attempt le hm
    by_cases hlt : attempt < 3
    · have hrec := fun le' => ih (attempt + 1) le' (by omega)
      rcases hn : net attempt with e | ⟨status, body⟩
      · obtain ⟨ha, hr⟩ := hrec e
        rw [upload_go_transport net parse attempt hlt e le hn]
        simp only
        exact ⟨by omega, by omega⟩
      · by_cases hs : isSuccessStatus status = true
        · rcases hp : parse body with e' | r
          · rw [upload_go_success_bad_body net parse attempt hlt status body le hn hs e' hp]
            exact ⟨by show 1 ≤ 3 - attempt; omega, rfl⟩
          · rw [upload_go_success net parse attempt hlt status body le hn hs r hp]
            exact ⟨by show 1 ≤ 3 - attempt; omega, rfl⟩
        · by_cases h429 : status = 429
          · subst h429
            obtain ⟨ha, hr⟩ := hrec "Rate-Limit erreicht"
            rw [upload_go_429 net parse attempt hlt body le hn]
            simp only
            exact ⟨by omega, by omega⟩
          · obtain ⟨ha, hr⟩ := hrec body
            rw [upload_go_other net parse attempt hlt status body le hn hs h429]
            simp only
            exact ⟨by omega, by omega⟩
    · rw [upload_go_exhausted net parse attempt (by omega) le]
      exact ⟨by simp, rfl⟩

/-- Entering attempt 1 or 2 always prepends the `2^attempt` backoff sleep. -/
theorem upload_go_wait_head (net : Nat → HttpAttempt)
    (parse : String → Except String FolderUploadResponseM)
    (attempt : Nat) (h0 : 0 < attempt) (hlt : attempt < 3) (le : String) :
    ∃ rest, (upload_file_go net parse attempt le).waits = 2 ^ attempt :: rest := by
  rcases hn : net attempt with e | ⟨status, body⟩
  · rw [upload_go_transport net parse attempt hlt e le hn]
    exact ⟨(upload_file_go net parse (attempt + 1) e).waits, by simp [h0]⟩
  · by_cases hs : isSuccessStatus status = true
    · rcases hp : parse body with e' | r
      · rw [upload_go_success_bad_body net parse attempt hlt status body le hn hs e' hp]
        exact ⟨[], by simp [h0]⟩
      · rw [upload_go_success net parse attempt hlt status body le hn hs r hp]
        exact ⟨[], by simp [h0]⟩
    · by_cases h429 : status = 429
      · subst h429
        rw [upload_go_429 net parse attempt hlt body le hn]
        exact ⟨10 :: (upload_file_go net parse (attempt + 1) "Rate-Limit erreicht").waits,
          by simp [h0]⟩
      · rw [upload_go_other net parse attempt hlt status body le hn hs h429]
        exact ⟨(upload_file_go net parse (attempt + 1) body).waits, by simp [h0]⟩

/-- C7: the folder upload makes at most 3 HTTP attempts, rebuilding the form
(re-reading the bytes) once per attempt; two transport failures followed by a
decodable 2xx succeed after sleeping 2 s then 4 s (total wait 6 s ≥ 6); and a
429 on the first attempt inserts the extra 10 s sleep before the 2 s backoff
of the next attempt. -/
theorem C7_upload_retry (net : Nat → HttpAttempt)
    (parse : String → Except String FolderUploadResponseM) :
    ((upload_file net parse).attempts ≤ 3 ∧
      (upload_file net parse).rebuilds = (upload_file net parse).attempts) ∧
    (∀ e0 e1 status body r, net 0 = .transport e0 → net 1 = .transport e1 →
      net 2 = .response status body → isSuccessStatus status = true →
      parse body = .ok r →
      upload_file net parse =
        { result := .ok r, attempts := 3, rebuilds := 3, waits := [2, 4] } ∧
      List.sum [2, 4] ≥ 6) ∧
    (∀ body, net 0 = .response 429 body →
      ∃ rest, (upload_file net parse).waits = 10 :: 2 :: rest) := by
  refine ⟨?_, ?_, ?_⟩
  · exact upload_go_attempts_le net parse 3 0 "" (by omega)
  · intro e0 e1 status body r h0 h1 h2 hs hp
    refine ⟨?_, by simp⟩
    show upload_file_go net parse 0 "" = _
    rw [upload_go_transport net parse 0 (by omega) e0 "" h0]
    rw [upload_go_transport net parse 1 (by omega) e1 e0 h1]
    rw [upload_go_success net parse 2 (by omega) status body e1 h2 hs r hp]
    rfl
  · intro body h0
    show ∃ rest, (upload_file_go net parse 0 "").waits = 10 :: 2 :: rest
    rw [upload_go_429 net parse 0 (by omega) body "" h0]
    obtain ⟨rest, hrest⟩ :=
      upload_go_wait_head net parse 1 (by omega) (by omega) "Rate-Limit erreicht"
    exact ⟨rest, by simp [hrest]⟩

/-- Concrete network for the C7 witness: two transport failures, then a 200
whose body decodes. -/
def netFlaky : Nat → HttpAttempt := fun i =>
  if i = 0 then .transport "connection reset"
  else if i = 1 then .transport "timeout"
  else .response 200 "ok-body"

/-- Upload response decoded by the C7 witness parser. -/
def uploadRespW : FolderUploadResponseM :=
  { success := true, job_id := 42, filename := "doc.pdf", duplicate := false
    message := "stored" }

/-- C7 witness: on the flaky network the upload succeeds on the third
attempt with backoff sleeps of 2 s and 4 s. -/
theorem C7_upload_retry_witness :
    upload_file netFlaky (fun _ => Except.ok uploadRespW) =
      { result := .ok uploadRespW, attempts := 3, rebuilds := 3, waits := [2, 4] } :=
  ((C7_upload_retry netFlaky (fun _ => Except.ok uploadRespW)).2.1
    "connection reset" "timeout" 200 "ok-body" uploadRespW rfl rfl rfl (by decide) rfl).1

/-- A file as `process_file` observes it: extension (as
`path.extension().and_then(to_str)` yields it), current metadata size, the
three stability size samples, and the content bytes. -/
structure FileM where
  ext : Option String
  size : Nat
  size_samples : List Nat
  bytes : List Nat
deriving Repr

/-- Observable outcome of `process_file`: its result, the known-hash set
afterwards, whether `upload_file` was invoked, whether the post-upload action
ran, and the `files_uploaded` increment. -/
structure ProcessOutcome where
  result : Except String Unit
  known : List String
  upload_called : Bool
  post_ran : Bool
  uploaded_delta : Nat
deriving Repr

/-- `process_file` (folder_watcher.rs lines 202-264): skip disallowed
extensions; fail files over 50 MiB ("Datei zu groß"); fail unstable files;
hash the bytes (`compute_file_hash`, abstracted to a function of the
contents); a known hash skips the upload but still runs the post-upload
action; otherwise upload (outcome as oracle), remember the hash, bump
`files_uploaded` and run the post-upload action (outcome as oracle, its error
propagating). -/
def process_file (hash_fn : List Nat → String) (known : List String) (f : FileM)
    (upload_result : Except String FolderUploadResponseM)
    (post_result : Except String Unit) : ProcessOutcome :=
  if ! is_allowed_extension f.ext then
    { result := .ok (), known := known, upload_called := false
      post_ran := false, uploaded_delta := 0 }
  else if f.size > max_file_size then
    { result := .error ("Datei zu groß: " ++ toString (f.size / 1024 / 1024) ++
        " MB (max " ++ toString (max_file_size / 1024 / 1024) ++ " MB)")
      known := known, upload_called := false, post_ran := false, uploaded_delta := 0 }
  else if ! wait_for_file_stable f.size_samples then
    { result := .error "Datei nicht stabil (wird noch geschrieben?)"
      known := known, upload_called := false, post_ran := false, uploaded_delta := 0 }
  else
    let file_hash := hash_fn f.bytes
    if known.contains file_hash then
      { result := post_result, known := known, upload_called := false
        post_ran := true, uploaded_delta := 0 }
    else
      match upload_result with
      | .error e =>
        { result := .error e, known := known, upload_called := true
          post_ran := false, uploaded_delta := 0 }
      | .ok _ =>
        { result := post_result, known := file_hash :: known, upload_called := true
          post_ran := true, uploaded_delta := 1 }

/-- C6: a file whose hash is already known is not uploaded but still gets the
post-upload action (and the hash set is unchanged); consequently two files
with the same bytes, each passing the extension, size and stability gates,
processed in sequence from a state not yet knowing their hash, cause exactly
one upload (the first), and both undergo the post-upload action. -/
theorem C6_folder_dedup (hash_fn : List Nat → String) (known : List String)
    (f f1 f2 : FileM) (ur ur1 ur2 : Except String FolderUploadResponseM)
    (pr pr1 pr2 : Except String Unit) (resp : FolderUploadResponseM) :
    (is_allowed_extension f.ext = true → f.size ≤ max_file_size →
      wait_for_file_stable f.size_samples = true →
      known.contains (hash_fn f.bytes) = true →
      (process_file hash_fn known f ur pr).upload_called = false ∧
      (process_file hash_fn known f ur pr).post_ran = true ∧
      (process_file hash_fn known f ur pr).known = known) ∧
    (f1.bytes = f2.bytes →
      is_allowed_extension f1.ext = true → f1.size ≤ max_file_size →
      wait_for_file_stable f1.size_samples = true →
      is_allowed_extension f2.ext = true → f2.size ≤ max_file_size →
      wait_for_file_stable f2.size_samples = true →
      known.contains (hash_fn f1.bytes) = false →
      ur1 = .ok resp →
      (process_file hash_fn known f1 ur1 pr1).upload_called = true ∧
      (process_file hash_fn
          (process_file hash_fn known f1 ur1 pr1).known f2 ur2 pr2).upload_called = false ∧
      (process_file hash_fn known f1 ur1 pr1).post_ran = true ∧
      (process_file hash_fn
          (process_file hash_fn known f1 ur1 pr1).known f2 ur2 pr2).post_ran = true) := by
  constructor
  · intro hext hsize hstable hknown
    have hns : ¬ f.size > max_file_size := by omega
    have hmem : hash_fn f.bytes ∈ known := by simpa using hknown
    refine ⟨?_, ?_, ?_⟩ <;> simp [process_file, hext, hns, hstable, hmem]
  · intro hbytes hext1 hsize1 hstable1 hext2 hsize2 hstable2 hknown hur
    have hns1 : ¬ f1.size > max_file_size := by omega
    have hns2 : ¬ f2.size > max_file_size := by omega
    have hnmem : hash_fn f1.bytes ∉ known := by simpa using hknown
    have h1 : process_file hash_fn known f1 ur1 pr1 =
        { result := pr1, known := hash_fn f1.bytes :: known, upload_called := true
          post_ran := true, uploaded_delta := 1 } := by
      simp [process_file, hext1, hns1, hstable1, hnmem, hur]
    have hmem2 : hash_fn f2.bytes ∈ (hash_fn f1.bytes :: known) := by
      rw [← hbytes]
      simp
    refine ⟨?_, ?_, ?_, ?_⟩ <;>
      simp [h1, process_file, hext1, hext2, hns1, hns2, hstable1, hstable2, hnmem, hur, hmem2]

/-- Hash function for the C6 witness (any function of the bytes will do). -/
def hashW : List Nat → String := fun bytes => toString bytes

/-- Two distinct files with identical bytes, as dropped in the C6 witness. -/
def fileW1 : FileM :=
  { ext := some "pdf", size := 10240, size_samples := [10240, 10240, 10240]
    bytes := [37, 80, 68, 70] }

/-- Second file of the C6 witness: same bytes under another name. -/
def fileW2 : FileM :=
  { ext := some "PDF", size := 10240, size_samples := [10240, 10240, 10240]
    bytes := [37, 80, 68, 70] }

/-- C6 witness: processing the two identical files in sequence uploads only
the first, and both get the post-upload action. -/
theorem C6_folder_dedup_witness :
    (process_file hashW [] fileW1 (.ok uploadRespW) (.ok ())).upload_called = true ∧
    (process_file hashW
      (process_file hashW [] fileW1 (.ok uploadRespW) (.ok ())).known
      fileW2 (.ok uploadRespW) (.ok ())).upload_called = false ∧
    (process_file hashW [] fileW1 (.ok uploadRespW) (.ok ())).post_ran = true ∧
    (process_file hashW
      (process_file hashW [] fileW1 (.ok uploadRespW) (.ok ())).known
      fileW2 (.ok uploadRespW) (.ok ())).post_ran = true :=
  (C6_folder_dedup hashW [] fileW1 fileW1 fileW2 (.ok uploadRespW) (.ok uploadRespW)
      (.ok uploadRespW) (.ok ()) (.ok ()) (.ok ()) uploadRespW).2
    rfl (by decide) (by decide) (by decide) (by decide) (by decide) (by decide)
    (by decide) rfl

/-! ### main.rs — shell-visible bridge status -/

/-- `BridgeStatus` (main.rs lines 27-38). -/
structure BridgeStatusM where
  connected : Bool
  docflow_url : Option String
  scanner_count : Nat
  last_discovery : Option String
  version : String
  poller_active : Bool
  jobs_processed : Nat
  folder_sync_active : Bool
  folder_sync_path : Option String
deriving Repr, DecidableEq

/-- `AppState::default` (main.rs lines 49-69): the initial bridge status. -/
def initial_bridge_status (version : String) : BridgeStatusM :=
  { connected := false, docflow_url := none, scanner_count := 0
    last_discovery := none, version := version, poller_active := false
    jobs_processed := 0, folder_sync_active := false, folder_sync_path := none }

/-- `get_status` (main.rs lines 72-76): clone of the stored status. -/
def get_status (s : BridgeStatusM) : BridgeStatusM := s

/-- Status write in `discover_scanners` (main.rs lines 90-94). -/
def apply_discovery (n : Nat) (t : String) (s : BridgeStatusM) : BridgeStatusM :=
  { s with scanner_count := n, last_discovery := some t }

/-- Status write in `pair_with_docflow` (main.rs lines 172-176) and in the
boot restoration (main.rs lines 544-548). -/
def apply_connected (url : String) (s : BridgeStatusM) : BridgeStatusM :=
  { s with connected := true, docflow_url := some url }

/-- Status write after starting the poller (main.rs lines 203-206 and
568-571). -/
def apply_poller_started (s : BridgeStatusM) : BridgeStatusM :=
  { s with poller_active := true }

/-- Status write in `disconnect` (main.rs lines 242-247). -/
def apply_disconnect (s : BridgeStatusM) : BridgeStatusM :=
  { s with connected := false, docflow_url := none, poller_active := false
           folder_sync_active := false, folder_sync_path := none }

/-- Status write in `configure_folder_sync` (main.rs lines 328-332) and in
the boot restoration (main.rs lines 599-603). -/
def apply_folder_sync_started (p : String) (s : BridgeStatusM) : BridgeStatusM :=
  { s with folder_sync_active := true, folder_sync_path := some p }

/-- Status write in `stop_folder_sync` (main.rs lines 365-369). -/
def apply_folder_sync_stopped (s : BridgeStatusM) : BridgeStatusM :=
  { s with folder_sync_active := false, folder_sync_path := none }

/-- The bridge statuses reachable from `AppState::default` under every status
write the application performs (main.rs contains no other assignment to
`bridge_status`; in particular no command copies the poller's private
`jobs_processed` counter into it). -/
inductive ReachableBridgeStatus : BridgeStatusM → Prop
  | init (version : String) : ReachableBridgeStatus (initial_bridge_status version)
  | discovery (n : Nat) (t : String) {s : BridgeStatusM} :
      ReachableBridgeStatus s → ReachableBridgeStatus (apply_discovery n t s)
  | connected (url : String) {s : BridgeStatusM} :
      ReachableBridgeStatus s → ReachableBridgeStatus (apply_connected url s)
  | poller_started {s : BridgeStatusM} :
      ReachableBridgeStatus s → ReachableBridgeStatus (apply_poller_started s)
  | disconnect {s : BridgeStatusM} :
      ReachableBridgeStatus s → ReachableBridgeStatus (apply_disconnect s)
  | folder_sync_started (p : String) {s : BridgeStatusM} :
      ReachableBridgeStatus s → ReachableBridgeStatus (apply_folder_sync_started p s)
  | folder_sync_stopped {s : BridgeStatusM} :
      ReachableBridgeStatus s → ReachableBridgeStatus (apply_folder_sync_stopped s)

/-- C10: in every reachable state the shell-visible `jobs_processed` of
`get_status` is 0 — it is initialised to 0 and no status write ever touches
it (successful uploads only increment the poller's private counter). -/
theorem C10_jobs_processed_zero (s : BridgeStatusM)
    (h : ReachableBridgeStatus s) : (get_status s).jobs_processed = 0 := by
  induction h with
  | init version => rfl
  | discovery n t _ ih => exact ih
  | connected url _ ih => exact ih
  | poller_started _ ih => exact ih
  | disconnect _ ih => exact ih
  | folder_sync_started p _ ih => exact ih
  | folder_sync_stopped _ ih => exact ih

/-- C10 witness: a state reached by pairing, discovery and folder-sync start
still reports zero processed jobs. -/
theorem C10_jobs_processed_zero_witness :
    (get_status (apply_folder_sync_started "/w"
      (apply_poller_started (apply_discovery 2 "2026-01-01T00:00:00Z"
        (apply_connected "http://docflow:4000"
          (initial_bridge_status "0.1.0")))))).jobs_processed = 0 :=
  C10_jobs_processed_zero _
    (ReachableBridgeStatus.folder_sync_started "/w"
      (ReachableBridgeStatus.poller_started
        (ReachableBridgeStatus.discovery 2 "2026-01-01T00:00:00Z"
          (ReachableBridgeStatus.connected "http://docflow:4000"
            (ReachableBridgeStatus.init "0.1.0")))))
